import Mathlib

/-!
Shallow embedding of the reverse-tunnel relay subsystem of go-gost-x
(handler/tunnel/tunnel.go and handler/tunnel/handler.go), of the bounded
accept queues of the mtcp/h2 listeners, and of the stats-observer period
logic shared by the handlers, together with proofs of the specification
claims about them.

Machine integers are modelled as Nat (bytes: values below 256, with
explicit mod-256 arithmetic where Go byte arithmetic overflows) and Int
(time.Duration nanoseconds).  Heap state touched by a function is passed
and returned explicitly.  Background goroutines, timers and locks are
outside the embedding; the mutex-serialized operations are modelled as
sequential state transitions, as the spec's own concurrency section
prescribes.
-/

/-- Modelled from the spec (§3): relay.TunnelID is an external collaborator
of this repository; a 16-byte identifier whose one-bit private flag is
carried out-of-band of the 16 bytes.  The zero value means unset. -/
structure TunnelID where
  bytes : List Nat
  priv : Bool
deriving DecidableEq

/-- The all-zero 16-byte value. -/
def zero16 : List Nat := List.replicate 16 0

/-- Modelled from the spec (§3): relay.NewTunnelID builds a public tunnel ID
from the given bytes. -/
def NewTunnelID (v : List Nat) : TunnelID := ⟨v, false⟩

/-- Modelled from the spec (§3, §6): relay.NewPrivateTunnelID builds a
private tunnel ID from the given bytes. -/
def NewPrivateTunnelID (v : List Nat) : TunnelID := ⟨v, true⟩

/-- Modelled from the spec (§3): the zero (unset) test looks at the 16
identity bytes. -/
def TunnelID.IsZero (tid : TunnelID) : Bool := tid.bytes.all (fun b => b == 0)

/-- Modelled from the spec (§3): relay.ConnectorID is an external
collaborator; a 16-byte identifier exposing the IsUDP predicate and a
selection weight in 0..255. -/
structure ConnectorID where
  isUDP : Bool
  weight : Nat
deriving DecidableEq

/-- MaxWeight of tunnel.go line 24: weight 255 is a hard preference. -/
def MaxWeight : Nat := 255

/-- The mux.Session collaborator (internal/util/mux), reduced to the
observations the tunnel code makes of it: its closed state, the outcome of
GetConn (a stream handle or an error), and the result of Close. -/
structure MuxSession where
  closed : Bool
  getConnErr : Option String
  getConnConn : Nat
  closeErr : Option String
deriving DecidableEq

/-- Connector of tunnel.go lines 34-41 (time and options fields dropped:
they do not affect the modelled operations beyond the network tag). -/
structure Connector where
  id : ConnectorID
  tid : TunnelID
  node : String
  s : Option MuxSession
deriving DecidableEq

/-- A stream handle returned by Connector.GetConn after the stats and
traffic wrappers are applied; the wrapper layer tags the conn with the
network name chosen at tunnel.go lines 95-98. -/
structure WrappedConn where
  raw : Nat
  network : String
deriving DecidableEq

/-- Connector.GetConn of tunnel.go lines 83-110.  The receiver is an
Option to model the nil pointer; a nil receiver or nil session returns
(nil, nil).  Otherwise the session's GetConn outcome is propagated, and a
successful conn is wrapped with the tcp/udp network tag. -/
def Connector.GetConn (c : Option Connector) : Option WrappedConn × Option String :=
  match c with
  | none => (none, none)
  | some cc =>
    match cc.s with
    | none => (none, none)
    | some s =>
      match s.getConnErr with
      | some e => (none, some e)
      | none => (some ⟨s.getConnConn, if cc.id.isUDP then "udp" else "tcp"⟩, none)

/-- Connector.Close of tunnel.go lines 112-118: nil receiver or nil session
returns nil, otherwise the session's Close result. -/
def Connector.Close (c : Option Connector) : Option String :=
  match c with
  | none => none
  | some cc =>
    match cc.s with
    | none => none
    | some s => s.closeErr

/-- Connector.IsClosed of tunnel.go lines 120-126: true for a nil receiver
or nil session, otherwise the session's closed state. -/
def Connector.IsClosed (c : Option Connector) : Bool :=
  match c with
  | none => true
  | some cc =>
    match cc.s with
    | none => true
    | some s => s.closed

/-- Claim C10: Connector.GetConn called on a nil Connector, or on a
Connector whose mux session is nil, returns both a nil connection and a nil
error, so callers in that case receive neither a usable connection nor an
error value to detect the failure; by contrast IsClosed returns true and
Close returns nil in the same situation. -/
theorem claimC10 (c : Option Connector)
    (h : c = none ∨ ∃ cc, c = some cc ∧ cc.s = none) :
    Connector.GetConn c = (none, none) ∧ Connector.IsClosed c = true ∧
      Connector.Close c = none := by
  rcases h with h | ⟨cc, rfl, hs⟩
  · subst h
    exact ⟨rfl, rfl, rfl⟩
  · refine ⟨?_, ?_, ?_⟩ <;>
      simp [Connector.GetConn, Connector.IsClosed, Connector.Close, hs]

theorem claimC10_witness :
    ((none : Option Connector) = none ∨
      ∃ cc, (none : Option Connector) = some cc ∧ cc.s = none) ∧
    (Connector.GetConn none = (none, none) ∧ Connector.IsClosed none = true ∧
      Connector.Close none = none) :=
  ⟨Or.inl rfl, claimC10 none (Or.inl rfl)⟩

/-- The effective ticker period of the stats-observer task
(tunnelHandler.observeStats, handler.go lines 314-317, and identically in
the socks4/socks5/http2 handlers): the configured observePeriod is used
unless it is below one millisecond, in which case 5 seconds.  Durations are
nanosecond counts. -/
def observeStatsPeriod (observePeriod : Int) : Int :=
  if observePeriod < 1000000 then 5000000000 else observePeriod

/-- Claim C7: the handler stats-observer task ticks every observePeriod
with a default of 5 seconds and a minimum of 1 millisecond: for every
configured observePeriod of at least one millisecond the effective tick
period equals observePeriod, and for every configured value below one
millisecond the effective tick period is 5 seconds. -/
theorem claimC7 (d : Int) :
    (1000000 ≤ d → observeStatsPeriod d = d) ∧
    (d < 1000000 → observeStatsPeriod d = 5000000000) := by
  constructor
  · intro h
    simp [observeStatsPeriod, not_lt.mpr h]
  · intro h
    simp [observeStatsPeriod, h]

theorem claimC7_witness :
    ((1000000 : Int) ≤ 2000000 ∧ observeStatsPeriod 2000000 = 2000000) ∧
    ((0 : Int) < 1000000 ∧ observeStatsPeriod 0 = 5000000000) :=
  ⟨⟨by norm_num, (claimC7 2000000).1 (by norm_num)⟩,
   ⟨by norm_num, (claimC7 0).2 (by norm_num)⟩⟩

/-- Modelled from the spec (§9 design notes): selector.RandomWeighted, a
repository package not included in the excerpt.  State: the accumulated
(item, weight) pairs. -/
structure RandomWeighted (α : Type) where
  items : List (α × Nat)
deriving DecidableEq

/-- Modelled from the spec (§9): NewRandomWeighted starts empty. -/
def NewRandomWeighted (α : Type) : RandomWeighted α := ⟨[]⟩

/-- Modelled from the spec (§9): add(item, weight) accumulates a pair. -/
def RandomWeighted.Add {α : Type} (rw : RandomWeighted α) (x : α) (w : Nat) :
    RandomWeighted α := ⟨rw.items ++ [(x, w)]⟩

/-- Modelled from the spec (§9): reset() discards everything added. -/
def RandomWeighted.Reset {α : Type} (_ : RandomWeighted α) : RandomWeighted α := ⟨[]⟩

/-- Total accumulated weight. -/
def sumWeights {α : Type} (l : List (α × Nat)) : Nat :=
  l.foldl (fun s p => s + p.2) 0

/-- Walk the cumulative weights and return the item owning position k. -/
def pickWeighted {α : Type} : List (α × Nat) → Nat → Option α
  | [], _ => none
  | (x, w) :: rest, k => if k < w then some x else pickWeighted rest (k - w)

/-- Modelled from the spec (§9): next() returns nil when nothing was added,
otherwise an item sampled proportionally to its weight; the random draw is
passed in explicitly as r. -/
def RandomWeighted.Next {α : Type} (rw : RandomWeighted α) (r : Nat) : Option α :=
  if rw.items.isEmpty then none
  else pickWeighted rw.items (r % sumWeights rw.items)

theorem pickWeighted_mem {α : Type} :
    ∀ (l : List (α × Nat)) (k : Nat) (x : α),
      pickWeighted l k = some x → ∃ w, (x, w) ∈ l := by
  intro l
  induction l with
  | nil => intro k x h; simp [pickWeighted] at h
  | cons p rest ih =>
    intro k x h
    rcases p with ⟨y, w⟩
    rw [pickWeighted] at h
    by_cases hk : k < w
    · rw [if_pos hk] at h
      cases h
      exact ⟨w, List.mem_cons_self _ _⟩
    · rw [if_neg hk] at h
      obtain ⟨w2, hw2⟩ := ih (k - w) x h
      exact ⟨w2, List.mem_cons_of_mem _ hw2⟩

theorem RandomWeighted.Next_mem {α : Type} (rw : RandomWeighted α) (r : Nat)
    (x : α) (h : rw.Next r = some x) : ∃ w, (x, w) ∈ rw.items := by
  rw [RandomWeighted.Next] at h
  by_cases he : rw.items.isEmpty
  · rw [if_pos he] at h; cases h
  · rw [if_neg he] at h
    exact pickWeighted_mem rw.items _ x h

/-- Tunnel of tunnel.go lines 128-137 (time, mutex and sd dropped; the
close channel becomes the closed flag). -/
structure Tunnel where
  node : String
  id : TunnelID
  connectors : List Connector
  closed : Bool
  ttl : Int
deriving DecidableEq

/-- Modelled from the spec (§4.3): defaultTTL, defined in the repository's
metadata file which is not part of the excerpt; the spec gives 15s as the
handler-provided default. -/
def defaultTTL : Int := 15000000000

/-- NewTunnel of tunnel.go lines 139-152 (the reaper goroutine is outside
the embedding). -/
def NewTunnel (node : String) (tid : TunnelID) (ttl : Int) : Tunnel :=
  { node := node, id := tid, connectors := [], closed := false,
    ttl := if ttl ≤ 0 then defaultTTL else ttl }

/-- Tunnel.AddConnector of tunnel.go lines 162-171: a nil connector is
ignored, otherwise it is appended. -/
def Tunnel.AddConnector (t : Tunnel) (c : Option Connector) : Tunnel :=
  match c with
  | none => t
  | some cc => { t with connectors := t.connectors ++ [cc] }

/-- The normalized weight of tunnel.go lines 189-192: weight 0 counts as 1. -/
def normWeight (c : Connector) : Nat :=
  if c.id.weight = 0 then 1 else c.id.weight

/-- The reset-then-add step of tunnel.go lines 196-203, operating on the
pair (selector, found). -/
def selectAdd (st : RandomWeighted Connector × Bool) (c : Connector) (weight : Nat) :
    RandomWeighted Connector × Bool :=
  if weight = MaxWeight ∧ st.2 = false then
    (RandomWeighted.Add (RandomWeighted.Reset st.1) c weight, true)
  else if weight = MaxWeight ∨ st.2 = false then
    (RandomWeighted.Add st.1 c weight, st.2)
  else st

/-- One iteration of the candidate loop of tunnel.go lines 184-205: skip
closed connectors, skip network mismatches, otherwise run the
max-weight-aware add on the normalized weight. -/
def selectStep (network : String) (st : RandomWeighted Connector × Bool)
    (c : Connector) : RandomWeighted Connector × Bool :=
  if Connector.IsClosed (some c) = true then st
  else if ((network == "udp") == c.id.isUDP) = true then
    selectAdd st c (normWeight c)
  else st

/-- Tunnel.GetConnector of tunnel.go lines 173-208: single-element fast
path, then the candidate loop feeding the weighted random selector.  The
random draw of the selector is the explicit argument r. -/
def Tunnel.GetConnector (t : Tunnel) (network : String) (r : Nat) : Option Connector :=
  if t.connectors.length = 1 then t.connectors.head?
  else
    (t.connectors.foldl (selectStep network) (NewRandomWeighted Connector, false)).1.Next r

theorem foldl_inv {σ α : Type} (f : σ → α → σ) (I : σ → Prop)
    (hstep : ∀ s a, I s → I (f s a)) :
    ∀ (l : List α) (s : σ), I s → I (l.foldl f s) := by
  intro l
  induction l with
  | nil => intro s h; simpa using h
  | cons a rest ih =>
    intro s h
    rw [List.foldl_cons]
    exact ih _ (hstep s a h)

theorem foldl_reach {σ α : Type} (f : σ → α → σ) (Q : σ → Prop)
    (hmono : ∀ s a, Q s → Q (f s a)) :
    ∀ (l : List α) (s : σ) (a : α), a ∈ l → (∀ s0, Q (f s0 a)) →
      Q (l.foldl f s) := by
  intro l
  induction l with
  | nil => intro s a ha; cases ha
  | cons b rest ih =>
    intro s a ha htrig
    rw [List.foldl_cons]
    rcases List.mem_cons.mp ha with hab | hmem
    · subst hab
      exact foldl_inv f Q hmono rest _ (htrig s)
    · exact ih _ a hmem htrig

/-- A live connector whose type matches the queried network (the filter of
tunnel.go lines 185-195). -/
def liveMatch (network : String) (c : Connector) : Prop :=
  Connector.IsClosed (some c) = false ∧ c.id.isUDP = (network == "udp")

theorem selectStep_inv_live (network : String)
    (st : RandomWeighted Connector × Bool) (c : Connector)
    (h : ∀ p ∈ st.1.items, liveMatch network p.1) :
    ∀ p ∈ (selectStep network st c).1.items, liveMatch network p.1 := by
  intro p hp
  unfold selectStep at hp
  split at hp
  · exact h p hp
  · rename_i hclosed
    split at hp
    · rename_i hmatch
      have hc : liveMatch network c :=
        ⟨Bool.eq_false_iff.mpr hclosed, (eq_of_beq hmatch).symm⟩
      unfold selectAdd at hp
      split at hp
      · simp [RandomWeighted.Add, RandomWeighted.Reset] at hp
        subst hp
        exact hc
      · split at hp
        · simp [RandomWeighted.Add] at hp
          rcases hp with hp | hp
          · exact h p hp
          · subst hp
            exact hc
        · exact h p hp
    · exact h p hp

theorem normWeight_eq_max {c : Connector} (h : normWeight c = MaxWeight) :
    c.id.weight = MaxWeight := by
  unfold normWeight at h
  split at h
  · exact absurd h (by decide)
  · exact h

theorem selectStep_inv_max (network : String)
    (st : RandomWeighted Connector × Bool) (c : Connector)
    (h : st.2 = true → ∀ p ∈ st.1.items, p.1.id.weight = MaxWeight) :
    (selectStep network st c).2 = true →
      ∀ p ∈ (selectStep network st c).1.items, p.1.id.weight = MaxWeight := by
  unfold selectStep
  split
  · exact h
  · split
    · unfold selectAdd
      split
      · rename_i hcond
        intro _ p hp
        simp [RandomWeighted.Add, RandomWeighted.Reset] at hp
        subst hp
        exact normWeight_eq_max hcond.1
      · split
        · rename_i hcond1 hcond2
          intro hf p hp
          simp [RandomWeighted.Add] at hp
          rcases hp with hp | hp
          · exact h hf p hp
          · subst hp
            rcases hcond2 with hw | hfalse
            · exact normWeight_eq_max hw
            · rw [hf] at hfalse
              cases hfalse
        · exact h
    · exact h

theorem selectStep_found_mono (network : String)
    (st : RandomWeighted Connector × Bool) (c : Connector)
    (h : st.2 = true) : (selectStep network st c).2 = true := by
  unfold selectStep
  split
  · exact h
  · split
    · unfold selectAdd
      split
      · rfl
      · split
        · exact h
        · exact h
    · exact h

theorem selectStep_found_trigger (network : String) (c : Connector)
    (hclosed : Connector.IsClosed (some c) = false)
    (hmatch : c.id.isUDP = (network == "udp"))
    (hw : c.id.weight = MaxWeight) :
    ∀ st, (selectStep network st c).2 = true := by
  intro st
  have hnw : normWeight c = MaxWeight := by
    simp [normWeight, hw, MaxWeight]
  unfold selectStep
  rw [if_neg (by simp [hclosed]), if_pos (by simp [hmatch])]
  unfold selectAdd
  cases hf : st.2 with
  | false => rw [if_pos ⟨hnw, rfl⟩]
  | true => rw [if_neg (by simp), if_pos (Or.inl hnw)]

/-- Claim C1: for every tunnel and every network string N, GetConnector(N)
either returns nil or returns a connector C with C.IsClosed() == false and
C.id.IsUDP() equal to (N == "udp"), except when the tunnel's connector list
has exactly one element, in which case that sole connector is returned
without any filtering (even if it is closed or its network type does not
match N). -/
theorem claimC1 (t : Tunnel) (network : String) (r : Nat) :
    (t.connectors.length = 1 → t.GetConnector network r = t.connectors.head?) ∧
    (t.connectors.length ≠ 1 →
      t.GetConnector network r = none ∨
      ∃ c, t.GetConnector network r = some c ∧
        Connector.IsClosed (some c) = false ∧
        c.id.isUDP = (network == "udp")) := by
  constructor
  · intro h
    unfold Tunnel.GetConnector
    rw [if_pos h]
  · intro h
    cases hres : t.GetConnector network r with
    | none => exact Or.inl rfl
    | some c =>
      refine Or.inr ⟨c, rfl, ?_⟩
      have hres2 := hres
      unfold Tunnel.GetConnector at hres2
      rw [if_neg h] at hres2
      obtain ⟨w, hw⟩ := RandomWeighted.Next_mem _ r c hres2
      have hinv := foldl_inv (selectStep network)
        (fun st => ∀ p ∈ st.1.items, liveMatch network p.1)
        (fun s a h0 => selectStep_inv_live network s a h0)
        t.connectors (NewRandomWeighted Connector, false)
        (by intro p hp; simp [NewRandomWeighted] at hp)
      exact hinv (c, w) hw

/-- Claim C2: in Tunnel.GetConnector with more than one connector in the
list, if any live, network-matching candidate has weight 255 (MaxWeight),
then the returned connector (when non-nil) is always one whose weight is
255: the first max-weight candidate seen resets the selection set, and
afterwards only further max-weight candidates are added, so non-max
candidates are never chosen when a max-weight candidate is present. -/
theorem claimC2 (t : Tunnel) (network : String) (r : Nat) (c : Connector)
    (hlen : 1 < t.connectors.length)
    (hmax : ∃ cm ∈ t.connectors, Connector.IsClosed (some cm) = false ∧
      cm.id.isUDP = (network == "udp") ∧ cm.id.weight = MaxWeight)
    (hres : t.GetConnector network r = some c) :
    c.id.weight = MaxWeight := by
  have hne : t.connectors.length ≠ 1 := ne_of_gt hlen
  unfold Tunnel.GetConnector at hres
  rw [if_neg hne] at hres
  obtain ⟨cm, hcm_mem, hcm1, hcm2, hcm3⟩ := hmax
  have hfound : (t.connectors.foldl (selectStep network)
      (NewRandomWeighted Connector, false)).2 = true :=
    foldl_reach (selectStep network) (fun st => st.2 = true)
      (fun s a h0 => selectStep_found_mono network s a h0)
      t.connectors _ cm hcm_mem
      (selectStep_found_trigger network cm hcm1 hcm2 hcm3)
  have hinv := foldl_inv (selectStep network)
    (fun st => st.2 = true → ∀ p ∈ st.1.items, p.1.id.weight = MaxWeight)
    (fun s a h0 => selectStep_inv_max network s a h0)
    t.connectors (NewRandomWeighted Connector, false)
    (by intro h0; exact absurd h0 Bool.false_ne_true)
  obtain ⟨w, hw⟩ := RandomWeighted.Next_mem _ r c hres
  exact hinv hfound (c, w) hw

/-- A live session for the concrete witnesses. -/
def sessionLive : MuxSession := ⟨false, none, 7, none⟩

def tidA : TunnelID := ⟨zero16, false⟩

def cTcp1 : Connector := ⟨⟨false, 1⟩, tidA, "n", some sessionLive⟩

def cTcpMax : Connector := ⟨⟨false, 255⟩, tidA, "n", some sessionLive⟩

def cUdpClosed : Connector := ⟨⟨true, 1⟩, tidA, "n", none⟩

def tunPair : Tunnel := ⟨"n", tidA, [cUdpClosed, cTcp1], false, defaultTTL⟩

def tunMax : Tunnel := ⟨"n", tidA, [cTcp1, cTcpMax], false, defaultTTL⟩

theorem claimC1_witness :
    (tunPair.connectors.length ≠ 1) ∧
    (tunPair.GetConnector "tcp" 0 = none ∨
      ∃ c, tunPair.GetConnector "tcp" 0 = some c ∧
        Connector.IsClosed (some c) = false ∧
        c.id.isUDP = ("tcp" == "udp")) :=
  ⟨by decide, (claimC1 tunPair "tcp" 0).2 (by decide)⟩

theorem claimC2_witness :
    (1 < tunMax.connectors.length) ∧ cTcpMax.id.weight = MaxWeight :=
  ⟨by decide,
   claimC2 tunMax "tcp" 0 cTcpMax (by decide) (by decide) (by decide)⟩

/-- The observable effects of one Tunnel.Close call: which connectors it
closed, whether it closed the close channel, and its return value. -/
structure CloseEffect where
  closedConnectors : List Connector
  channelClosed : Bool
  ret : Option String
deriving DecidableEq

/-- Tunnel.Close of tunnel.go lines 210-224: if the close channel is
already closed nothing happens, otherwise every connector in the list is
closed and the channel is closed; the return value is always nil. -/
def Tunnel.Close (t : Tunnel) : Tunnel × CloseEffect :=
  if t.closed then (t, ⟨[], false, none⟩)
  else ({ t with closed := true }, ⟨t.connectors, true, none⟩)

theorem Tunnel.Close_of_closed (t : Tunnel) (h : t.closed = true) :
    t.Close = (t, ⟨[], false, none⟩) := by
  unfold Tunnel.Close
  rw [if_pos h]

theorem Tunnel.Close_closed (t : Tunnel) : (t.Close).1.closed = true := by
  unfold Tunnel.Close
  split
  · rename_i h
    exact h
  · rfl

/-- A call in a sequence of tunnel mutations. -/
inductive TunnelOp where
  | add (c : Option Connector)
  | close
deriving DecidableEq

/-- Run a sequence of AddConnector and Close calls on a tunnel. -/
def runTunnelOps : Tunnel → List TunnelOp → Tunnel
  | t, [] => t
  | t, TunnelOp.add c :: rest => runTunnelOps (t.AddConnector c) rest
  | t, TunnelOp.close :: rest => runTunnelOps (t.Close).1 rest

/-- The non-nil connectors added by a sequence, in order. -/
def addedConnectors (ops : List TunnelOp) : List Connector :=
  ops.filterMap (fun op => match op with
    | TunnelOp.add (some c) => some c
    | _ => none)

theorem runTunnelOps_connectors :
    ∀ (ops : List TunnelOp) (t : Tunnel),
      (runTunnelOps t ops).connectors = t.connectors ++ addedConnectors ops := by
  intro ops
  induction ops with
  | nil => intro t; simp [runTunnelOps, addedConnectors]
  | cons op rest ih =>
    intro t
    cases op with
    | add c =>
      cases c with
      | none => simp [runTunnelOps, Tunnel.AddConnector, addedConnectors, ih]
      | some cc => simp [runTunnelOps, Tunnel.AddConnector, addedConnectors, ih]
    | close =>
      have hc : ((t.Close).1).connectors = t.connectors := by
        unfold Tunnel.Close
        split <;> rfl
      simp [runTunnelOps, addedConnectors, ih, hc]

/-- Claim C5 counterexample: adding the same connector twice leaves a
duplicate in the list; AddConnector never deduplicates. -/
theorem claimC5_counterexample :
    ¬ (runTunnelOps (NewTunnel "n" tidA 0)
        [TunnelOp.add (some cTcp1), TunnelOp.add (some cTcp1)]).connectors.Nodup := by
  decide

/-- Claim C5 (amended): for any sequence of AddConnector and Close calls in
which no connector is added twice, the connector list contains no
duplicates (AddConnector appends without deduplication, so re-adding the
same connector would duplicate it), and Close is idempotent: a second Close
after a first Close performs no further connector closes, does not close
the already-closed channel again, and returns nil. -/
theorem claimC5 (node : String) (tid : TunnelID) (ttl : Int)
    (ops : List TunnelOp) (h : (addedConnectors ops).Nodup) :
    (runTunnelOps (NewTunnel node tid ttl) ops).connectors.Nodup ∧
    (∀ t : Tunnel, ((t.Close).1.Close).2 = ⟨[], false, none⟩ ∧
      ((t.Close).1.Close).1 = (t.Close).1) := by
  constructor
  · rw [runTunnelOps_connectors]
    simpa [NewTunnel] using h
  · intro t
    rw [Tunnel.Close_of_closed _ (Tunnel.Close_closed t)]
    exact ⟨rfl, rfl⟩

theorem claimC5_witness :
    (addedConnectors [TunnelOp.add (some cTcp1), TunnelOp.add (some cTcpMax)]).Nodup ∧
    ((runTunnelOps (NewTunnel "n" tidA defaultTTL)
        [TunnelOp.add (some cTcp1), TunnelOp.add (some cTcpMax)]).connectors.Nodup ∧
     (∀ t : Tunnel, ((t.Close).1.Close).2 = ⟨[], false, none⟩ ∧
       ((t.Close).1.Close).1 = (t.Close).1)) :=
  ⟨by decide, claimC5 "n" tidA defaultTTL _ (by decide)⟩

/-- Association-list get, modelling a Go map lookup (reading a Go map never
inserts or modifies entries). -/
def assocGet (m : List (String × Tunnel)) (k : String) : Option Tunnel :=
  match m with
  | [] => none
  | (k1, v1) :: rest => if k1 == k then some v1 else assocGet rest k

/-- Association-list set, modelling a Go map store. -/
def assocSet : List (String × Tunnel) → String → Tunnel → List (String × Tunnel)
  | [], k, v => [(k, v)]
  | (k1, v1) :: rest, k, v =>
    if k1 == k then (k, v) :: rest else (k1, v1) :: assocSet rest k v

/-- ConnectorPool of tunnel.go lines 286-291 (sd and mutex dropped). -/
structure ConnectorPool where
  node : String
  tunnels : List (String × Tunnel)
deriving DecidableEq

/-- NewConnectorPool of tunnel.go lines 293-301 (the idle sweeper goroutine
is outside the embedding). -/
def NewConnectorPool (node : String) : ConnectorPool := ⟨node, []⟩

def hexDigit (n : Nat) : Char :=
  if n < 10 then Char.ofNat (48 + n) else Char.ofNat (87 + n)

def byteHex (b : Nat) : List Char := [hexDigit ((b / 16) % 16), hexDigit (b % 16)]

def bytesHex (bs : List Nat) : List Char :=
  bs.foldr (fun b acc => byteHex b ++ acc) []

/-- Modelled from the spec (§6): the textual form of a tunnel ID is the
canonical UUID string of its 16 bytes, with a leading dollar sign marking a
private tunnel; this is the map key used by the pool. -/
def TunnelID.str (tid : TunnelID) : String :=
  let bs := tid.bytes
  let core := bytesHex (bs.take 4) ++ Char.ofNat 45 ::
    (bytesHex ((bs.drop 4).take 2) ++ Char.ofNat 45 ::
      (bytesHex ((bs.drop 6).take 2) ++ Char.ofNat 45 ::
        (bytesHex ((bs.drop 8).take 2) ++ Char.ofNat 45 :: bytesHex (bs.drop 10))))
  if tid.priv then String.mk (Char.ofNat 36 :: core) else String.mk core

/-- ConnectorPool.Add of tunnel.go lines 303-317: get-or-create the tunnel
for the ID's textual key, then AddConnector on it. -/
def ConnectorPool.Add (p : ConnectorPool) (tid : TunnelID) (c : Option Connector)
    (ttl : Int) : ConnectorPool :=
  let s := tid.str
  let t := match assocGet p.tunnels s with
    | some t0 => t0
    | none => NewTunnel p.node tid ttl
  { p with tunnels := assocSet p.tunnels s (t.AddConnector c) }

/-- ConnectorPool.Get of tunnel.go lines 319-333.  The receiver is an
Option to model the nil pointer; the pool state is returned alongside the
result to make the absence of mutation explicit. -/
def ConnectorPool.Get (p : Option ConnectorPool) (network : String) (tid : String)
    (r : Nat) : Option Connector × Option ConnectorPool :=
  match p with
  | none => (none, none)
  | some pp =>
    match assocGet pp.tunnels tid with
    | none => (none, some pp)
    | some t => (t.GetConnector network r, some pp)

/-- Claim C6: ConnectorPool.Get(network, tid) with a tid that has no entry
in the pool's tunnels map returns nil and leaves the map unchanged: no
entry is created for the missing key, and no existing entry is modified or
removed. -/
theorem claimC6 (p : ConnectorPool) (network tid : String) (r : Nat)
    (h : assocGet p.tunnels tid = none) :
    ConnectorPool.Get (some p) network tid r = (none, some p) := by
  unfold ConnectorPool.Get
  simp [h]

def poolA : ConnectorPool := ⟨"n", [("a", tunPair)]⟩

theorem claimC6_witness :
    assocGet poolA.tunnels "b" = none ∧
    ConnectorPool.Get (some poolA) "tcp" "b" 0 = (none, some poolA) :=
  ⟨by decide, claimC6 poolA "tcp" "b" 0 (by decide)⟩

/-- The bounded accept queue (cqueue) of the mtcp listener, a buffered
channel of capacity backlog; its contents are the queued conns in FIFO
order. -/
structure ConnQueue where
  capacity : Nat
  conns : List Nat
deriving DecidableEq

/-- The nonblocking send of mtcpListener.mux (part_003 lines 148-153) and
h2Listener.handleFunc (lines 502-507): enqueue if the buffered channel has
room, otherwise close (drop) the conn; the Bool reports the drop. -/
def queuePush (q : ConnQueue) (c : Nat) : ConnQueue × Bool :=
  if q.conns.length < q.capacity then ({ q with conns := q.conns ++ [c] }, false)
  else (q, true)

/-- The stream-accept loop of mtcpListener.mux (part_003 lines 141-155)
over a finite trace of accepted streams; returns the final queue and the
list of streams that were closed because the queue was full. -/
def muxServe : ConnQueue → List Nat → ConnQueue × List Nat
  | q, [] => (q, [])
  | q, s :: rest =>
    let pr := queuePush q s
    let r := muxServe pr.1 rest
    (r.1, (if pr.2 then [s] else []) ++ r.2)

/-- Claim C8: when the listener's bounded connection queue (capacity
backlog) is full, pushing a newly accepted connection never blocks the
accept loop: the new connection is closed rather than enqueued, the queue
contents are unchanged, and the loop proceeds to the next accept. -/
theorem claimC8 (q : ConnQueue) (s : Nat) (rest : List Nat)
    (h : q.capacity ≤ q.conns.length) :
    queuePush q s = (q, true) ∧
    muxServe q (s :: rest) = ((muxServe q rest).1, s :: (muxServe q rest).2) := by
  have hp : queuePush q s = (q, true) := by
    unfold queuePush
    rw [if_neg (not_lt.mpr h)]
  exact ⟨hp, by simp [muxServe, hp]⟩

def fullQueue : ConnQueue := ⟨2, [10, 11]⟩

theorem claimC8_witness :
    (fullQueue.capacity ≤ fullQueue.conns.length) ∧
    (queuePush fullQueue 12 = (fullQueue, true) ∧
      muxServe fullQueue (12 :: [13]) =
        ((muxServe fullQueue [13]).1, 12 :: (muxServe fullQueue [13]).2)) :=
  ⟨by decide, claimC8 fullQueue 12 [13] (by decide)⟩

/-- The relay response statuses the handler writes (§6); the numeric byte
values live in the external relay module. -/
inductive RelayStatus where
  | ok
  | badRequest
  | unauthorized
  | forbidden
  | serviceUnavailable
  | netUnreachable
deriving DecidableEq

/-- Modelled from the spec (§6): relay.Version1 of the external relay
module. -/
def version1 : Nat := 1

/-- Modelled from the spec (§6): CmdMask isolates the command from the
flag bits in the upper nibble. -/
def cmdMask : Nat := 15

/-- Modelled from the spec (§6): the CONNECT command code. -/
def cmdConnect : Nat := 1

/-- Modelled from the spec (§6): the BIND command code. -/
def cmdBind : Nat := 2

/-- A relay request feature as scanned by handler.go lines 220-244. -/
inductive Feature where
  | userAuth (user pass : String)
  | addr (host : String) (port : Nat)
  | tunnel (id : TunnelID)
  | network (n : String)
  | other
deriving DecidableEq

/-- net.JoinHostPort: hosts containing a colon are bracketed. -/
def joinHostPort (host : String) (port : Nat) : String :=
  if host.data.contains ':' then "[" ++ host ++ "]:" ++ toString port
  else host ++ ":" ++ toString port

/-- The feature-scan accumulator of handler.go lines 216-219, with the Go
zero values. -/
structure ParsedFeatures where
  user : String
  pass : String
  srcAddr : String
  dstAddr : String
  network : String
  tunnelID : TunnelID
deriving DecidableEq

def initialFeatures : ParsedFeatures :=
  ⟨"", "", "", "", "tcp", ⟨zero16, false⟩⟩

/-- One step of the feature scan of handler.go lines 220-244: UserAuth sets
user and pass, the first Addr sets the source and the second the
destination, Tunnel sets the tunnel ID, Network sets the network name. -/
def featStep (st : ParsedFeatures) (f : Feature) : ParsedFeatures :=
  match f with
  | Feature.userAuth u p => { st with user := u, pass := p }
  | Feature.addr h port =>
    let v := joinHostPort h port
    if st.srcAddr ≠ "" then { st with dstAddr := v } else { st with srcAddr := v }
  | Feature.tunnel id => { st with tunnelID := id }
  | Feature.network n => { st with network := n }
  | Feature.other => st

/-- A relay request as read by Handle. -/
structure Request where
  version : Nat
  cmd : Nat
  features : List Feature
deriving DecidableEq

/-- The errors Handle can return before or at dispatch (handler.go lines
29-36). -/
inductive HandleErr where
  | rateLimit
  | readFail
  | badVersion
  | tunnelID
  | unauthorized
  | unknownCmd
deriving DecidableEq

/-- The outcome of tunnelHandler.Handle up to command dispatch: either an
early return carrying the responses written and the error returned, or the
dispatch of CONNECT or BIND with the parsed features. -/
inductive HandleOutcome where
  | earlyErr (written : List RelayStatus) (e : HandleErr)
  | doConnect (pf : ParsedFeatures)
  | doBind (pf : ParsedFeatures)
deriving DecidableEq

/-- The handler configuration observed by Handle: whether the per-source
rate limit admits the conn, and the optional authenticator (none when no
auther is configured; the function returns some client ID on success and
none on rejection). -/
structure HandlerCfg where
  rateLimitAllow : Bool
  auther : Option (String → String → Option String)

/-- The command switch of handler.go lines 266-280. -/
def dispatchCmd (req : Request) (pf : ParsedFeatures) : HandleOutcome :=
  if req.cmd &&& cmdMask = cmdConnect then HandleOutcome.doConnect pf
  else if req.cmd &&& cmdMask = cmdBind then HandleOutcome.doBind pf
  else HandleOutcome.earlyErr [RelayStatus.badRequest] HandleErr.unknownCmd

/-- tunnelHandler.Handle of handler.go lines 172-281, embedded up to
command dispatch: rate limit, request read (none models a read error),
version check, feature scan, zero-tunnel-ID check, authentication, then
the command switch. -/
def tunnelHandle (cfg : HandlerCfg) (readResult : Option Request) : HandleOutcome :=
  if cfg.rateLimitAllow = false then HandleOutcome.earlyErr [] HandleErr.rateLimit
  else
    match readResult with
    | none => HandleOutcome.earlyErr [] HandleErr.readFail
    | some req =>
      if req.version ≠ version1 then
        HandleOutcome.earlyErr [RelayStatus.badRequest] HandleErr.badVersion
      else
        let pf := req.features.foldl featStep initialFeatures
        if pf.tunnelID.IsZero = true then
          HandleOutcome.earlyErr [RelayStatus.badRequest] HandleErr.tunnelID
        else
          match cfg.auther with
          | some auth =>
            match auth pf.user pf.pass with
            | none => HandleOutcome.earlyErr [RelayStatus.unauthorized] HandleErr.unauthorized
            | some _ => dispatchCmd req pf
          | none => dispatchCmd req pf

/-- Modelled from the spec (§4.5): the pool effect of one Handle call.
The bodies of handleConnect and handleBind are in repository files outside
the excerpt; per §4.5, BIND registers the new connector via pool.Add with
the request's tunnel ID, and CONNECT only reads the pool.  Early returns
happen before any dispatch and leave the pool alone. -/
def handlePoolAfter (cfg : HandlerCfg) (readResult : Option Request)
    (p : ConnectorPool) (newConnector : Option Connector) (ttl : Int) : ConnectorPool :=
  match tunnelHandle cfg readResult with
  | HandleOutcome.earlyErr _ _ => p
  | HandleOutcome.doConnect _ => p
  | HandleOutcome.doBind pf => p.Add pf.tunnelID newConnector ttl

theorem featStep_no_tunnel :
    ∀ (fs : List Feature) (st : ParsedFeatures),
      (∀ f ∈ fs, ∀ id, f ≠ Feature.tunnel id) →
      (fs.foldl featStep st).tunnelID = st.tunnelID := by
  intro fs
  induction fs with
  | nil => intro st _; rfl
  | cons f rest ih =>
    intro st h
    rw [List.foldl_cons]
    have hrest : ∀ g ∈ rest, ∀ id, g ≠ Feature.tunnel id :=
      fun g hg => h g (List.mem_cons_of_mem _ hg)
    rw [ih _ hrest]
    cases f with
    | userAuth u p => rfl
    | addr hh port =>
      simp only [featStep]
      split <;> rfl
    | tunnel id => exact absurd rfl (h _ (List.mem_cons_self _ _) id)
    | network n => rfl
    | other => rfl

/-- Claim C4: in the tunnel handler's Handle, a request whose tunnel-ID
feature is absent or whose 16 bytes are all zero causes a response with
status BadRequest to be written and the handler to return the
invalid-tunnel-ID error, before any command (BIND or CONNECT) is
dispatched. -/
theorem claimC4 (cfg : HandlerCfg) (req : Request)
    (hrate : cfg.rateLimitAllow = true)
    (hver : req.version = version1)
    (htid : (∀ f ∈ req.features, ∀ id, f ≠ Feature.tunnel id) ∨
      (req.features.foldl featStep initialFeatures).tunnelID.IsZero = true) :
    tunnelHandle cfg (some req) =
      HandleOutcome.earlyErr [RelayStatus.badRequest] HandleErr.tunnelID ∧
    (∀ p newConnector ttl,
      handlePoolAfter cfg (some req) p newConnector ttl = p) := by
  have hz : (req.features.foldl featStep initialFeatures).tunnelID.IsZero = true := by
    rcases htid with h | h
    · rw [featStep_no_tunnel _ _ h]
      decide
    · exact h
  have h1 : tunnelHandle cfg (some req) =
      HandleOutcome.earlyErr [RelayStatus.badRequest] HandleErr.tunnelID := by
    simp [tunnelHandle, hrate, hver, hz]
  exact ⟨h1, fun p nc ttl => by unfold handlePoolAfter; rw [h1]⟩

/-- Claim C3: in the tunnel handler's Handle, when an authenticator is
configured and it rejects the supplied (user, pass) credentials, the
handler writes a response with status Unauthorized, returns the
unauthorized error, and the connector pool is left unchanged (no tunnel is
created and no connector is added). -/
theorem claimC3 (cfg : HandlerCfg) (req : Request)
    (auth : String → String → Option String)
    (hrate : cfg.rateLimitAllow = true)
    (hver : req.version = version1)
    (htid : (req.features.foldl featStep initialFeatures).tunnelID.IsZero = false)
    (hauth : cfg.auther = some auth)
    (hrej : auth (req.features.foldl featStep initialFeatures).user
      (req.features.foldl featStep initialFeatures).pass = none) :
    tunnelHandle cfg (some req) =
      HandleOutcome.earlyErr [RelayStatus.unauthorized] HandleErr.unauthorized ∧
    (∀ p newConnector ttl,
      handlePoolAfter cfg (some req) p newConnector ttl = p) := by
  have h1 : tunnelHandle cfg (some req) =
      HandleOutcome.earlyErr [RelayStatus.unauthorized] HandleErr.unauthorized := by
    simp [tunnelHandle, hrate, hver, htid, hauth, hrej]
  exact ⟨h1, fun p nc ttl => by unfold handlePoolAfter; rw [h1]⟩

/-- An authenticator that rejects the user named bad. -/
def autherRejectBad : String → String → Option String :=
  fun u _ => if u == "bad" then none else some u

def cfgAuth : HandlerCfg := ⟨true, some autherRejectBad⟩

def cfgPlain : HandlerCfg := ⟨true, none⟩

def tidOne : TunnelID := ⟨1 :: List.replicate 15 0, false⟩

def reqAuthBad : Request :=
  ⟨version1, cmdBind, [Feature.userAuth "bad" "x", Feature.tunnel tidOne]⟩

def reqNoTid : Request := ⟨version1, cmdBind, [Feature.userAuth "u" "p"]⟩

theorem claimC3_witness :
    (cfgAuth.rateLimitAllow = true ∧ reqAuthBad.version = version1 ∧
      (reqAuthBad.features.foldl featStep initialFeatures).tunnelID.IsZero = false ∧
      autherRejectBad (reqAuthBad.features.foldl featStep initialFeatures).user
        (reqAuthBad.features.foldl featStep initialFeatures).pass = none) ∧
    (tunnelHandle cfgAuth (some reqAuthBad) =
      HandleOutcome.earlyErr [RelayStatus.unauthorized] HandleErr.unauthorized ∧
     (∀ p newConnector ttl,
       handlePoolAfter cfgAuth (some reqAuthBad) p newConnector ttl = p)) :=
  ⟨⟨rfl, rfl, by decide, by decide⟩,
   claimC3 cfgAuth reqAuthBad autherRejectBad rfl rfl (by decide) rfl (by decide)⟩

theorem claimC4_witness :
    (cfgPlain.rateLimitAllow = true ∧ reqNoTid.version = version1 ∧
      (reqNoTid.features.foldl featStep initialFeatures).tunnelID.IsZero = true) ∧
    (tunnelHandle cfgPlain (some reqNoTid) =
      HandleOutcome.earlyErr [RelayStatus.badRequest] HandleErr.tunnelID ∧
     (∀ p newConnector ttl,
       handlePoolAfter cfgPlain (some reqNoTid) p newConnector ttl = p)) :=
  ⟨⟨rfl, rfl, by decide⟩,
   claimC4 cfgPlain reqNoTid rfl rfl (Or.inr (by decide))⟩

/-- The hex value of a character per the google/uuid xvalues table (the
external uuid dependency of parseTunnelID): digits, lowercase a-f and
uppercase A-F; everything else is the 255 sentinel. -/
def xvalue (c : Char) : Nat :=
  if 48 ≤ c.toNat ∧ c.toNat ≤ 57 then c.toNat - 48
  else if 97 ≤ c.toNat ∧ c.toNat ≤ 102 then c.toNat - 87
  else if 65 ≤ c.toNat ∧ c.toNat ≤ 70 then c.toNat - 55
  else 255

/-- google/uuid xtob: the byte value (b1 shifted left by 4, or-ed with b2)
in Go byte arithmetic (mod 256), and whether both characters were valid
hex digits. -/
def xtob (x1 x2 : Char) : Nat × Bool :=
  let b1 := xvalue x1
  let b2 := xvalue x2
  (((b1 <<< 4) % 256) ||| b2, b1 != 255 && b2 != 255)

/-- The byte positions of the canonical 36-character UUID form in
google/uuid Parse. -/
def uuidPositions : List Nat :=
  [0, 2, 4, 6, 9, 11, 14, 16, 19, 21, 24, 26, 28, 30, 32, 34]

/-- The hex-pair loop of google/uuid Parse for the canonical form: a byte
is stored only when its pair is valid, and the loop aborts at the first
invalid pair, leaving that byte and all later bytes at zero. -/
def hexLoop36 (cs : List Char) : List Nat → List Nat × Bool
  | [] => ([], true)
  | x :: rest =>
    let p := xtob (cs.getD x (Char.ofNat 0)) (cs.getD (x + 1) (Char.ofNat 0))
    if p.2 then
      let r := hexLoop36 cs rest
      (p.1 :: r.1, r.2)
    else ([], false)

/-- The hex loop of google/uuid Parse for the dashless 32-character form:
the byte at the failing index is stored (with the 255 sentinel folded into
its value) before the loop aborts. -/
def hexLoop32 (cs : List Char) : List Nat → List Nat × Bool
  | [] => ([], true)
  | i :: rest =>
    let p := xtob (cs.getD (2 * i) (Char.ofNat 0)) (cs.getD (2 * i + 1) (Char.ofNat 0))
    if p.2 then
      let r := hexLoop32 cs rest
      (p.1 :: r.1, r.2)
    else ([p.1], false)

def idx16 : List Nat := [0, 1, 2, 3, 4, 5, 6, 7, 8, 9, 10, 11, 12, 13, 14, 15]

/-- Pad a prefix of parsed bytes to the full 16; the unparsed tail stays at
the zero value exactly as in the Go array. -/
def pad16 (l : List Nat) : List Nat := l ++ List.replicate (16 - l.length) 0

def asciiToLower (c : Char) : Char :=
  if 65 ≤ c.toNat ∧ c.toNat ≤ 90 then Char.ofNat (c.toNat + 32) else c

/-- strings.EqualFold restricted to the ASCII folding relevant to the
urn:uuid: prefix comparison of google/uuid Parse. -/
def eqFold (a b : List Char) : Bool :=
  (a.map asciiToLower) == (b.map asciiToLower)

/-- The canonical-form tail of google/uuid Parse: the four dash positions
are checked, then the 16 hex pairs are read. -/
def uuidParseCanonical (cs : List Char) : List Nat × Bool :=
  if cs.getD 8 (Char.ofNat 0) = '-' ∧ cs.getD 13 (Char.ofNat 0) = '-' ∧
      cs.getD 18 (Char.ofNat 0) = '-' ∧ cs.getD 23 (Char.ofNat 0) = '-' then
    let r := hexLoop36 cs uuidPositions
    (pad16 r.1, r.2)
  else (zero16, false)

/-- google/uuid Parse (the external uuid dependency of parseTunnelID),
embedded over the character list of the input: it accepts the 36-character
canonical form, the urn:uuid:-prefixed form, the braced form (only the
leading character is stripped; the braces themselves are never verified)
and the 32-character dashless form; on failure it returns ok=false
together with the 16 bytes as far as they were filled in, the rest zero. -/
def uuidParse (cs : List Char) : List Nat × Bool :=
  if cs.length = 36 then uuidParseCanonical cs
  else if cs.length = 45 then
    if eqFold (cs.take 9) ("urn:uuid:".data) then uuidParseCanonical (cs.drop 9)
    else (zero16, false)
  else if cs.length = 38 then uuidParseCanonical (cs.drop 1)
  else if cs.length = 32 then
    let r := hexLoop32 cs idx16
    (pad16 r.1, r.2)
  else (zero16, false)

/-- parseTunnelID of tunnel.go lines 367-382: empty input yields the zero
TunnelID; a leading dollar sign marks the ID private and is stripped; the
UUID parse error is discarded and whatever bytes Parse produced are used. -/
def parseTunnelID (s : String) : TunnelID :=
  match s.data with
  | [] => NewTunnelID zero16
  | c :: rest =>
    if c = '$' then NewPrivateTunnelID (uuidParse rest).1
    else NewTunnelID (uuidParse (c :: rest)).1

/-- The input as seen by uuid.Parse: the optional leading dollar sign
stripped. -/
def dollarStripped (cs : List Char) : List Char :=
  match cs with
  | [] => []
  | c :: rest => if c = '$' then rest else c :: rest

/-- Whether the input starts with the dollar private marker. -/
def hasDollar (cs : List Char) : Bool :=
  match cs with
  | [] => false
  | c :: _ => c == '$'

theorem uuidParse_bad_length (cs : List Char)
    (h : ¬(cs.length = 36 ∨ cs.length = 45 ∨ cs.length = 38 ∨ cs.length = 32)) :
    uuidParse cs = (zero16, false) := by
  unfold uuidParse
  rw [if_neg (fun hh => h (Or.inl hh)),
      if_neg (fun hh => h (Or.inr (Or.inl hh))),
      if_neg (fun hh => h (Or.inr (Or.inr (Or.inl hh)))),
      if_neg (fun hh => h (Or.inr (Or.inr (Or.inr hh))))]

/-- Claim C9 (amended): parseTunnelID discards UUID parse errors and
reports no failure; the result is private iff the optional leading dollar
prefix was present; whenever the remaining string's length is not a
possible UUID length (36, 45, 38 or 32 characters) the result is the
TunnelID built from the all-zero UUID.  (For inputs of a valid length that
fail partway through parsing, the bytes parsed before the failure are
kept, so such a malformed ID can yield a non-zero TunnelID; see the
counterexample.) -/
theorem claimC9 (s : String)
    (h : ¬((dollarStripped s.data).length = 36 ∨ (dollarStripped s.data).length = 45 ∨
      (dollarStripped s.data).length = 38 ∨ (dollarStripped s.data).length = 32)) :
    parseTunnelID s = ⟨zero16, hasDollar s.data⟩ := by
  unfold parseTunnelID
  revert h
  cases hd : s.data with
  | nil =>
    intro h
    simp [hasDollar, NewTunnelID]
  | cons c rest =>
    intro h
    show (if c = '$' then NewPrivateTunnelID (uuidParse rest).1
      else NewTunnelID (uuidParse (c :: rest)).1) =
      ⟨zero16, hasDollar (c :: rest)⟩
    by_cases hc : c = '$'
    · rw [if_pos hc]
      simp only [dollarStripped, if_pos hc] at h
      rw [uuidParse_bad_length rest h]
      simp [NewPrivateTunnelID, hasDollar, hc]
    · rw [if_neg hc]
      simp only [dollarStripped, if_neg hc] at h
      rw [uuidParse_bad_length (c :: rest) h]
      simp [NewTunnelID, hasDollar, hc]

/-- Claim C9 counterexample: a malformed 32-character dashless input
without a dollar prefix yields a NON-zero TunnelID: uuid.Parse stores the
garbage byte of the failing first hex pair before aborting, and
parseTunnelID keeps those bytes, contradicting the claim that every
malformed input maps to the TunnelID built from the all-zero UUID. -/
theorem claimC9_counterexample :
    (uuidParse ("zzzzzzzzzzzzzzzzzzzzzzzzzzzzzzzz".data)).2 = false ∧
    parseTunnelID "zzzzzzzzzzzzzzzzzzzzzzzzzzzzzzzz" ≠ NewTunnelID zero16 ∧
    (parseTunnelID "zzzzzzzzzzzzzzzzzzzzzzzzzzzzzzzz").priv = false := by
  decide

theorem claimC9_witness :
    (¬((dollarStripped ("abc".data)).length = 36 ∨
      (dollarStripped ("abc".data)).length = 45 ∨
      (dollarStripped ("abc".data)).length = 38 ∨
      (dollarStripped ("abc".data)).length = 32)) ∧
    parseTunnelID "abc" = ⟨zero16, hasDollar ("abc".data)⟩ :=
  ⟨by decide, claimC9 "abc" (by decide)⟩
